import Mathlib

/-!
Verification development for the `playwright-master` repository: a shallow
embedding of its page-object operations (table reader, window manager,
download/upload/new-window event protocol, drag-and-drop helpers) as pure
Lean functions over explicit DOM/browser state, together with theorems
settling the specification's claims about them.
-/

set_option linter.unusedVariables false

namespace PlaywrightMaster

/-! ## String containment (JavaScript `String.prototype.includes`) -/

/-- Does the second character list occur at the very start of the first? -/
def charsStartWith : List Char → List Char → Bool
  | _, [] => true
  | [], _ :: _ => false
  | a :: as, b :: bs => a == b && charsStartWith as bs

/-- Does the second character list occur contiguously anywhere in the first? -/
def charsContain : List Char → List Char → Bool
  | [], sub => charsStartWith [] sub
  | a :: as, sub => charsStartWith (a :: as) sub || charsContain as sub

/-- JavaScript `s.includes(sub)`: substring containment, not equality. -/
def strIncludes (s sub : String) : Bool :=
  charsContain s.data sub.data

/-- JavaScript `s.trim()`: strip leading and trailing whitespace. -/
def jsTrim (s : String) : String :=
  ⟨((s.data.dropWhile Char.isWhitespace).reverse.dropWhile Char.isWhitespace).reverse⟩

/-! ## Table model

`TablePage` (src/unnamed/part_002) reads a `<table>` whose body rows are
lists of `<td>` cell texts.  The DOM state visible to the page object is the
list of body rows, each row the list of its cells' text contents. -/

/-- The DOM state of the table surface: body rows, each a list of cell texts. -/
structure TableDom where
  rows : List (List String)
deriving DecidableEq

/-- `TablePage.getRowCount`: `this.tableRows.count()` — the number of body
rows currently in the DOM. -/
def getRowCount (t : TableDom) : Nat :=
  t.rows.length

/-- `TablePage.getCellText(rowIndex, colIndex)`:
`row.locator("td").nth(colIndex).textContent() || ""`.
Modelled from the spec: the driver's `textContent()` on an element the
locator does not resolve to yields null (the code's `|| ""` turns both null
and the empty text into `""`); the driver library itself is not in src/. -/
def getCellText (t : TableDom) (rowIndex colIndex : Nat) : String :=
  (((t.rows.get? rowIndex).getD []).get? colIndex).getD ""

/-- `TablePage.getRowData(rowIndex)`: `row.locator("td").allTextContents()`
then `.map(c => c.trim())`; zero matching cells give the empty list. -/
def getRowData (t : TableDom) (rowIndex : Nat) : List String :=
  ((t.rows.get? rowIndex).getD []).map jsTrim

/-- `TablePage.getAllTableData()`: for each body row, the trimmed cell
texts; a row with zero cells contributes `[]`. -/
def getAllTableData (t : TableDom) : List (List String) :=
  t.rows.map (fun row => row.map jsTrim)

/-- `TablePage.getColumnData(columnIndex)`:
`getAllTableData().map(row => row[columnIndex])`.  JavaScript indexing past
the end of `row` yields `undefined`, modelled as `none`. -/
def getColumnData (t : TableDom) (columnIndex : Nat) : List (Option String) :=
  (getAllTableData t).map (fun row => row.get? columnIndex)

/-- The `for (let i = 0; i < n; i++) { if (p i) return i; } return -1;`
loop shared by the row-search methods. -/
def findLoop (p : Nat → Bool) (i n : Nat) : Int :=
  if i < n then
    (if p i then Int.ofNat i else findLoop p (i + 1) n)
  else
    -1
termination_by n - i
decreasing_by omega

/-- `TablePage.findRowIndexByCellContent(columnIndex, searchText)`: scan rows
from index 0; return the first row whose cell in the given column contains
the search text as a substring, else `-1`. -/
def findRowIndexByCellContent (t : TableDom) (columnIndex : Nat)
    (searchText : String) : Int :=
  findLoop (fun i => strIncludes (getCellText t i columnIndex) searchText)
    0 (getRowCount t)

/-- The `textContent()` of a whole row element: the concatenation of its
cells' texts (the DOM text of a `<tr>` is its descendants' text joined). -/
def rowTextContent (cells : List String) : String :=
  String.join cells

/-- `TablePage.findRowByContent(searchText)`: scan rows from index 0; return
the first row whose whole-row text contains the search text, else `-1`. -/
def findRowByContent (t : TableDom) (searchText : String) : Int :=
  findLoop
    (fun i => strIncludes (rowTextContent ((t.rows.get? i).getD [])) searchText)
    0 t.rows.length

/-! ## Sorting checks

`isColumnSortedAscending` / `isColumnSortedDescending` compare the column
values against `[...columnValues].sort()` (resp. `.sort().reverse()`),
`sort()` being JavaScript's default sort: string comparison, with every
`undefined` element moved to the end without consulting the comparator, and
equality judged via `JSON.stringify` (injective on arrays of strings and
nulls, hence plain list equality). -/

/-- JavaScript default `sort()` on defined string elements: stable sort by
lexicographic string order. -/
def jsSortStrings (l : List String) : List String :=
  l.mergeSort (fun a b => decide (a ≤ b))

/-- JavaScript default `sort()` on a column that may hold `undefined`
entries: defined values sorted lexicographically, `undefined`s at the end. -/
def jsSortColumn (l : List (Option String)) : List (Option String) :=
  (jsSortStrings (l.filterMap id)).map some ++ l.filter (fun x => x.isNone)

/-- The `data.map(row => row[columnIndex])` column extraction shared by the
sortedness checks (identical to `getColumnData`). -/
def columnValues (t : TableDom) (columnIndex : Nat) : List (Option String) :=
  (getAllTableData t).map (fun row => row.get? columnIndex)

/-- `TablePage.isColumnSortedAscending(columnIndex)`: the column equals its
default-sorted copy. -/
def isColumnSortedAscending (t : TableDom) (columnIndex : Nat) : Bool :=
  columnValues t columnIndex == jsSortColumn (columnValues t columnIndex)

/-- `TablePage.isColumnSortedDescending(columnIndex)`: the column equals its
default-sorted copy reversed. -/
def isColumnSortedDescending (t : TableDom) (columnIndex : Nat) : Bool :=
  columnValues t columnIndex == (jsSortColumn (columnValues t columnIndex)).reverse

/-! ## Window manager (`WindowsPage`, src/unnamed/part_004)

The browser context's state visible to `WindowsPage` is the ordered list of
open pages.  Pages are identified abstractly by strings. -/

/-- Marker for an `Except` value that is an error (a thrown exception). -/
def isErr {ε α : Type} : Except ε α → Bool
  | Except.error _ => true
  | Except.ok _ => false

/-- `WindowsPage.switchToWindow(index)`:
`if (index >= pages.length) throw new Error(...); return pages[index];`.
JavaScript `pages[index]` is `undefined` (here `none`) for a negative
index; the guard only checks the upper bound. -/
def switchToWindow (pages : List String) (index : Int) : Except String (Option String) :=
  if (pages.length : Int) ≤ index then
    Except.error ("Window " ++ toString index ++ " does not exist")
  else
    Except.ok (if index < 0 then none else pages.get? index.toNat)

/-! ## Event-race-safe action protocol

`downloadFileByName` (src/pages/filedownloadPage.ts),
`clickLinkOpeningNewWindow` and `uploadViaFileChooser`
(src/unnamed/part_004) all follow one shape: create the `waitForEvent`
future, issue the click, await the future, then use its payload.  Each
operation is embedded as the sequence of primitive driver steps it
performs, and the sequences are run against an environment that fires the
asynchronous event at the instant the click is issued — the worst case for
a lost wakeup.  An event fired while no subscription is active is lost. -/

/-- The kinds of asynchronous browser events the page objects wait for. -/
inductive EventKind
  | download
  | newPage
  | fileChooser
deriving DecidableEq, BEq, Repr

/-- One primitive driver step of a page-object operation. -/
inductive Step
  | subscribe (k : EventKind)
  | click
  | awaitEvent (k : EventKind)
  | awaitLoad
  | consume (k : EventKind)
  | returnPayload (k : EventKind)
deriving DecidableEq, Repr

/-- Protocol interpreter state: the active subscriptions and the payloads
captured so far (an association list from event kind to payload). -/
structure ProtoState where
  subs : List EventKind
  captured : List (EventKind × String)
deriving Repr

/-- The environment fires its events at click time; a payload is captured
only for kinds with an active subscription — otherwise the event is lost. -/
def fireAtClick (env : EventKind → Option String) (s : ProtoState) : ProtoState :=
  { s with
    captured := s.captured ++ s.subs.filterMap (fun k => (env k).map (fun p => (k, p))) }

/-- Run an operation's steps.  `awaitEvent` on a kind whose payload was
never captured times out; `returnPayload` yields the operation's returned
value; falling off the end returns void (`none`). -/
def runSteps (env : EventKind → Option String) :
    List Step → ProtoState → Except String (Option String)
  | [], _ => Except.ok none
  | Step.subscribe k :: rest, s => runSteps env rest { s with subs := k :: s.subs }
  | Step.click :: rest, s => runSteps env rest (fireAtClick env s)
  | Step.awaitEvent k :: rest, s =>
      match s.captured.lookup k with
      | some _ => runSteps env rest s
      | none => Except.error "TimeoutError"
  | Step.awaitLoad :: rest, s => runSteps env rest s
  | Step.consume _ :: rest, s => runSteps env rest s
  | Step.returnPayload k :: _, s => Except.ok (s.captured.lookup k)

/-- Run an operation from the initial state (no subscriptions, nothing
captured). -/
def runOp (tr : List Step) (env : EventKind → Option String) :
    Except String (Option String) :=
  runSteps env tr { subs := [], captured := [] }

/-- `FileDownloadPage.downloadFileByName`: create the download future,
click the link, await the future, return the download. -/
def downloadFileByName : List Step :=
  [Step.subscribe EventKind.download, Step.click,
   Step.awaitEvent EventKind.download, Step.returnPayload EventKind.download]

/-- `WindowsPage.clickLinkOpeningNewWindow`: create the new-page future,
click the link, await the future, wait for the new page's load state,
return the new page. -/
def clickLinkOpeningNewWindow : List Step :=
  [Step.subscribe EventKind.newPage, Step.click,
   Step.awaitEvent EventKind.newPage, Step.awaitLoad,
   Step.returnPayload EventKind.newPage]

/-- `FileUploadPage.uploadViaFileChooser`: create the file-chooser future,
click the drop zone, await the future, call `setFiles` on the chooser
(consuming it) — and return nothing. -/
def uploadViaFileChooser : List Step :=
  [Step.subscribe EventKind.fileChooser, Step.click,
   Step.awaitEvent EventKind.fileChooser, Step.consume EventKind.fileChooser]

/-- Index of the first subscription step for an event kind in a trace. -/
def subscribeIdx (tr : List Step) (k : EventKind) : Option Nat :=
  tr.findIdx? (fun st => st == Step.subscribe k)

/-- Index of the first click (triggering command) in a trace. -/
def clickIdx (tr : List Step) : Option Nat :=
  tr.findIdx? (fun st => st == Step.click)

/-! ## Download helpers (`FileDownloadPage`, src/pages/filedownloadPage.ts) -/

/-- A resolved `Download` object: `path()` yields the transient storage
path, or null if there is none. -/
structure DownloadObj where
  downloadPath : Option String
deriving Repr

/-- `FileDownloadPage.downloadAndReadText`: if `download.path()` is null the
method throws (`"Download failed - no path returned"`); otherwise it reads
and returns the file content (`fs` models `readFileSync` on the transient
store). -/
def downloadAndReadText (fs : String → String) (d : DownloadObj) :
    Except String String :=
  match d.downloadPath with
  | none => Except.error "Download failed - no path returned"
  | some p => Except.ok (fs p)

/-! ## Best-effort ad dismissal (`dismissAnyAds`, src/tests/level1/Dragdrop.spec.ts)

Each of the three click attempts is wrapped in `try { ... } catch {}`: a
click that times out (no such ad present) is swallowed, by design. -/

/-- Outcome of one bounded click attempt against a possibly absent ad. -/
inductive ClickOutcome
  | clicked
  | timedOut
deriving DecidableEq, Repr

/-- A bounded click: succeeds, or throws a timeout error when the target
never appears. -/
def tryClick (o : ClickOutcome) : Except String Unit :=
  match o with
  | ClickOutcome.clicked => Except.ok ()
  | ClickOutcome.timedOut => Except.error "TimeoutError"

/-- The `try { ... } catch {}` wrapper: any thrown error is swallowed. -/
def swallow (r : Except String Unit) : Except String Unit :=
  match r with
  | Except.ok _ => Except.ok ()
  | Except.error _ => Except.ok ()

/-- `dismissAnyAds`: three independent best-effort click attempts, each one
wrapped in its own error-swallowing block. -/
def dismissAnyAds (o1 o2 o3 : ClickOutcome) : Except String Unit := do
  let _ ← swallow (tryClick o1)
  let _ ← swallow (tryClick o2)
  let _ ← swallow (tryClick o3)
  pure ()

/-! ## Drag and drop (`DragDropPage`, src/unnamed/part_003) -/

/-- The drag-and-drop surface: the text contents of slot A (`#column-a`)
and slot B (`#column-b`). -/
structure DragState where
  a : String
  b : String
deriving DecidableEq, Repr

/-- Modelled from the spec: the swap behavior of the external target page's
own script is not in src/ (the page objects only forward `dragTo`); per the
spec's drag-and-drop scenario and the repository's tests (TC-DD02..TC-DD05),
dragging one column onto the other swaps the two slots' text contents. -/
def dragAtoB (s : DragState) : DragState :=
  { a := s.b, b := s.a }

/-- Modelled from the spec: `dragBtoA` performs the same content swap in
the other direction (TC-DD03, TC-DD04). -/
def dragBtoA (s : DragState) : DragState :=
  { a := s.b, b := s.a }

/-- Modelled from the spec: dragging a column onto itself changes nothing
(TC-DD09). -/
def dragAontoA (s : DragState) : DragState :=
  s

/-! ## Locator resolution as a state-passing read (C6)

The `TablePage` constructor stores declarative locators (`table#table1`,
`tbody tr`, ...), never resolved element handles; every method re-resolves
against the DOM current at call time.  Resolution is embedded as a
state-passing read that returns the matched elements together with the
(unchanged) DOM, making side-effect-freedom and the absence of caching
explicit. -/

/-- Resolving the `tableRows` locator (`table#table1 tbody tr`) against the
current DOM: the matched row elements, and the DOM it leaves behind. -/
def resolveTableRows (d : TableDom) : List (List String) × TableDom :=
  (d.rows, d)

/-- `tableRows.count()` as a state-passing read. -/
def tableRowsCount (d : TableDom) : Nat × TableDom :=
  ((resolveTableRows d).1.length, (resolveTableRows d).2)

/-- `getAllTableData()` as a state-passing read: the trimmed text contents
of every resolved row. -/
def tableRowsTexts (d : TableDom) : List (List String) × TableDom :=
  ((resolveTableRows d).1.map (fun row => row.map jsTrim),
   (resolveTableRows d).2)

/-- The defective ordering the protocol forbids: click first, subscribe
afterwards.  No operation in the repository has this shape; it is kept to
show the interpreter distinguishes it (the event fired at click time is
lost). -/
def clickThenSubscribe : List Step :=
  [Step.click, Step.subscribe EventKind.download,
   Step.awaitEvent EventKind.download, Step.returnPayload EventKind.download]

/-! ## Helper lemmas -/

/-- The search loop returns `-1` when no index in `[i, n)` satisfies the
predicate. -/
theorem findLoop_eq_neg_one (p : Nat → Bool) (i n : Nat)
    (h : ∀ j, i ≤ j → j < n → p j = false) : findLoop p i n = -1 := by
  unfold findLoop
  split
  · rename_i hlt
    rw [h i le_rfl hlt]
    simp only [Bool.false_eq_true, if_false]
    exact findLoop_eq_neg_one p (i + 1) n (fun j hj hjn => h j (by omega) hjn)
  · rfl
termination_by n - i
decreasing_by omega

/-- The search loop returns the least index `k ≥ i` below `n` satisfying
the predicate. -/
theorem findLoop_eq_found (p : Nat → Bool) (i n k : Nat)
    (hik : i ≤ k) (hkn : k < n) (hk : p k = true)
    (hmin : ∀ j, i ≤ j → j < k → p j = false) :
    findLoop p i n = Int.ofNat k := by
  unfold findLoop
  have hlt : i < n := by omega
  rw [if_pos hlt]
  by_cases hik' : i = k
  · subst hik'
    rw [hk]
    simp
  · rw [hmin i le_rfl (by omega)]
    simp only [Bool.false_eq_true, if_false]
    exact findLoop_eq_found p (i + 1) n k (by omega) hkn hk
      (fun j hj hjk => hmin j (by omega) hjk)
termination_by n - i
decreasing_by omega

/-- `charsStartWith` holds exactly when the second list is an initial
segment of the first. -/
theorem charsStartWith_iff (l sub : List Char) :
    charsStartWith l sub = true ↔ ∃ rest, sub ++ rest = l := by
  induction sub generalizing l with
  | nil =>
      simp [charsStartWith]
  | cons b bs ih =>
      cases l with
      | nil =>
          simp [charsStartWith]
      | cons a as =>
          simp only [charsStartWith, Bool.and_eq_true, beq_iff_eq, ih,
            List.cons_append, List.cons.injEq]
          constructor
          · rintro ⟨hab, rest, hrest⟩
            exact ⟨rest, hab.symm, hrest⟩
          · rintro ⟨rest, hab, hrest⟩
            exact ⟨hab.symm, rest, hrest⟩

/-- `charsContain` holds exactly when the second list occurs contiguously
inside the first. -/
theorem charsContain_iff (l sub : List Char) :
    charsContain l sub = true ↔ ∃ u v, u ++ sub ++ v = l := by
  induction l with
  | nil =>
      simp only [charsContain, charsStartWith_iff]
      constructor
      · rintro ⟨rest, hrest⟩
        exact ⟨[], rest, by simpa using hrest⟩
      · rintro ⟨u, v, huv⟩
        rcases List.append_eq_nil.mp (List.append_eq_nil.mp huv).1 with ⟨hu, hsub⟩
        exact ⟨[], by simp [hsub]⟩
  | cons a as ih =>
      simp only [charsContain, Bool.or_eq_true, charsStartWith_iff, ih]
      constructor
      · rintro (⟨rest, hrest⟩ | ⟨u, v, huv⟩)
        · exact ⟨[], rest, by simpa using hrest⟩
        · exact ⟨a :: u, v, by simp [huv]⟩
      · rintro ⟨u, v, huv⟩
        cases u with
        | nil =>
            left
            exact ⟨v, by simpa using huv⟩
        | cons x xs =>
            right
            simp only [List.cons_append, List.cons.injEq] at huv
            exact ⟨xs, v, huv.2⟩

/-- `strIncludes` is substring (infix) containment on the underlying
character lists. -/
theorem strIncludes_iff (s sub : String) :
    strIncludes s sub = true ↔ ∃ u v, u ++ sub.data ++ v = s.data :=
  charsContain_iff s.data sub.data

/-- Boolean equality on event kinds is reflexive (reduction helper for the
protocol interpreter's lookup). -/
theorem eventKind_beq_self (k : EventKind) : (k == k) = true := by
  cases k <;> rfl

/-- Every string contains the empty string. -/
theorem strIncludes_empty (s : String) : strIncludes s "" = true := by
  rw [strIncludes_iff]
  exact ⟨[], s.data, by simp⟩

/-- An event fired at click time is lost when the subscription is created
only after the click: the interpreter distinguishes the defective ordering
from the pattern the page objects use. -/
theorem clickThenSubscribe_loses_event :
    runOp clickThenSubscribe (fun _ => some "file.txt") =
      Except.error "TimeoutError" := rfl

/-- Sorting the concrete column `["2", "10"]` lexicographically yields
`["10", "2"]`: `"10"` precedes `"2"` because `'1' < '2'`. -/
theorem jsSortStrings_two_ten : jsSortStrings ["2", "10"] = ["10", "2"] := by
  unfold jsSortStrings
  simp [List.mergeSort, List.merge]
  decide

/-- The column sort on the two defined values `"2"` and `"10"`. -/
theorem jsSortColumn_two_ten :
    jsSortColumn [some "2", some "10"] = [some "10", some "2"] := by
  unfold jsSortColumn
  rw [show List.filterMap id [some "2", some "10"] = ["2", "10"] from rfl,
    jsSortStrings_two_ten]
  rfl

/-- Sorting a constant list of strings changes nothing. -/
theorem jsSortStrings_replicate (n : Nat) (s : String) :
    jsSortStrings (List.replicate n s) = List.replicate n s := by
  apply List.mergeSort_of_sorted
  exact List.pairwise_replicate.mpr (Or.inr (by simp))

/-- The column sort fixes any singleton column. -/
theorem jsSortColumn_single (x : Option String) : jsSortColumn [x] = [x] := by
  cases x <;> simp [jsSortColumn, jsSortStrings]

/-- The column sort fixes any constant column. -/
theorem jsSortColumn_replicate (n : Nat) (v : Option String) :
    jsSortColumn (List.replicate n v) = List.replicate n v := by
  cases v with
  | none =>
      simp [jsSortColumn, jsSortStrings, List.filterMap_replicate,
        List.filter_replicate]
  | some s =>
      simp [jsSortColumn, List.filterMap_replicate, List.filter_replicate,
        jsSortStrings_replicate, List.map_replicate]

/-! ## Claim theorems -/

/-- C2: for every table and search text, `findRowIndexByCellContent` and
`findRowByContent` return `-1` when no row matches and otherwise the
0-based index of the first (lowest-index) matching row; the `-1` sentinel
is distinct from index 0. -/
theorem findRow_sentinel_and_first_match (t : TableDom) (c : Nat) (s : String) :
    ((∀ i, i < getRowCount t → strIncludes (getCellText t i c) s = false) →
      findRowIndexByCellContent t c s = -1) ∧
    (∀ k, k < getRowCount t → strIncludes (getCellText t k c) s = true →
      (∀ j, j < k → strIncludes (getCellText t j c) s = false) →
      findRowIndexByCellContent t c s = Int.ofNat k) ∧
    ((∀ i, i < t.rows.length →
        strIncludes (rowTextContent ((t.rows.get? i).getD [])) s = false) →
      findRowByContent t s = -1) ∧
    (∀ k, k < t.rows.length →
      strIncludes (rowTextContent ((t.rows.get? k).getD [])) s = true →
      (∀ j, j < k →
        strIncludes (rowTextContent ((t.rows.get? j).getD [])) s = false) →
      findRowByContent t s = Int.ofNat k) ∧
    (-1 : Int) ≠ Int.ofNat 0 := by
  refine ⟨fun h => ?_, fun k hk hpk hmin => ?_, fun h => ?_,
    fun k hk hpk hmin => ?_, by decide⟩
  · exact findLoop_eq_neg_one _ 0 (getRowCount t) (fun j _ hj => h j hj)
  · exact findLoop_eq_found _ 0 (getRowCount t) k (Nat.zero_le k) hk hpk
      (fun j _ hj => hmin j hj)
  · exact findLoop_eq_neg_one _ 0 t.rows.length (fun j _ hj => h j hj)
  · exact findLoop_eq_found _ 0 t.rows.length k (Nat.zero_le k) hk hpk
      (fun j _ hj => hmin j hj)

/-- Witness for C2 at a concrete table: the search finds the first matching
row, and a search with no match yields the sentinel. -/
theorem findRow_sentinel_and_first_match_witness :
    findRowIndexByCellContent ⟨[["alpha"], ["beta"]]⟩ 0 "et" = Int.ofNat 1 ∧
    findRowByContent ⟨[["alpha"], ["beta"]]⟩ "zz" = -1 :=
  ⟨(findRow_sentinel_and_first_match ⟨[["alpha"], ["beta"]]⟩ 0 "et").2.1 1
      (by decide) (by decide) (by decide),
   (findRow_sentinel_and_first_match ⟨[["alpha"], ["beta"]]⟩ 0 "zz").2.2.1
      (by decide)⟩

/-- C9: the row searches match by substring containment, not exact
equality — each returns the lowest row index whose cell (respectively
whole-row text) contains the search text as a contiguous substring — and
searching for the empty string on a table with at least one row returns
index 0. -/
theorem findRow_substring_semantics (t : TableDom) (c : Nat) (s : String) :
    (∀ k, k < getRowCount t →
      (∃ u v, u ++ s.data ++ v = (getCellText t k c).data) →
      (∀ j, j < k → ¬ ∃ u v, u ++ s.data ++ v = (getCellText t j c).data) →
      findRowIndexByCellContent t c s = Int.ofNat k) ∧
    (∀ k, k < t.rows.length →
      (∃ u v, u ++ s.data ++ v = (rowTextContent ((t.rows.get? k).getD [])).data) →
      (∀ j, j < k →
        ¬ ∃ u v, u ++ s.data ++ v = (rowTextContent ((t.rows.get? j).getD [])).data) →
      findRowByContent t s = Int.ofNat k) ∧
    (1 ≤ t.rows.length →
      findRowIndexByCellContent t c "" = Int.ofNat 0 ∧
      findRowByContent t "" = Int.ofNat 0) := by
  refine ⟨fun k hk hex hmin => ?_, fun k hk hex hmin => ?_, fun hlen => ?_⟩
  · refine findLoop_eq_found _ 0 (getRowCount t) k (Nat.zero_le k) hk
      ((strIncludes_iff _ _).mpr hex) (fun j _ hj => ?_)
    rcases Bool.eq_false_or_eq_true (strIncludes (getCellText t j c) s) with ht | hf
    · exact absurd ((strIncludes_iff _ _).mp ht) (hmin j hj)
    · exact hf
  · refine findLoop_eq_found _ 0 t.rows.length k (Nat.zero_le k) hk
      ((strIncludes_iff _ _).mpr hex) (fun j _ hj => ?_)
    rcases Bool.eq_false_or_eq_true
        (strIncludes (rowTextContent ((t.rows.get? j).getD [])) s) with ht | hf
    · exact absurd ((strIncludes_iff _ _).mp ht) (hmin j hj)
    · exact hf
  · constructor
    · exact findLoop_eq_found _ 0 (getRowCount t) 0 le_rfl hlen
        (strIncludes_empty _) (fun j hj hj0 => absurd hj0 (by omega))
    · exact findLoop_eq_found _ 0 t.rows.length 0 le_rfl hlen
        (strIncludes_empty _) (fun j hj hj0 => absurd hj0 (by omega))

/-- Witness for C9: the empty search text matches row 0 of a one-row
table in both search operations. -/
theorem findRow_substring_semantics_witness :
    findRowIndexByCellContent ⟨[["a"]]⟩ 0 "" = Int.ofNat 0 ∧
    findRowByContent ⟨[["a"]]⟩ "" = Int.ofNat 0 :=
  (findRow_substring_semantics ⟨[["a"]]⟩ 0 "x").2.2 (by decide)

/-- C5: `getRowCount` returns a non-negative integer; on a table with zero
body rows it returns 0 (and, being a total function of the DOM, never
throws). -/
theorem getRowCount_nonneg_empty_zero (t : TableDom) :
    0 ≤ Int.ofNat (getRowCount t) ∧
    (t.rows = [] → getRowCount t = 0) ∧
    getRowCount t = t.rows.length := by
  refine ⟨Int.ofNat_zero_le _, fun h => ?_, rfl⟩
  simp [getRowCount, h]

/-- Witness for C5: the empty table has row count 0. -/
theorem getRowCount_nonneg_empty_zero_witness :
    getRowCount ⟨[]⟩ = 0 :=
  (getRowCount_nonneg_empty_zero ⟨[]⟩).2.1 rfl

/-- C8: `switchToWindow(index)` throws exactly when `index` is at least the
number of open pages; a negative index passes the guard and yields
`undefined` (`none`) instead of throwing. -/
theorem switchToWindow_upper_bound_only (pages : List String) (index : Int) :
    (isErr (switchToWindow pages index) = true ↔
      (pages.length : Int) ≤ index) ∧
    (index < 0 → switchToWindow pages index = Except.ok none) := by
  constructor
  · unfold switchToWindow
    split
    · rename_i h
      simpa [isErr] using h
    · rename_i h
      exact iff_of_false (by simp [isErr]) h
  · intro hneg
    unfold switchToWindow
    rw [if_neg (by omega), if_pos hneg]

/-- Witness for C8: index `-1` against a one-page context does not throw
and produces `undefined`. -/
theorem switchToWindow_upper_bound_only_witness :
    switchToWindow ["main"] (-1) = Except.ok none :=
  (switchToWindow_upper_bound_only ["main"] (-1)).2 (by decide)

/-- C4: dragging A onto B swaps the two slots' text contents; the inverse
drag restores the original state exactly; performing the same drag twice in
direct succession from any state (in particular an already-swapped pair) is
a no-op relative to that state; dragging a column onto itself changes
nothing; and the drag is not freely idempotent (one drag differs from
two). -/
theorem dragDrop_swap_involution (s : DragState) :
    dragAtoB s = { a := s.b, b := s.a } ∧
    dragBtoA (dragAtoB s) = s ∧
    dragAtoB (dragAtoB s) = s ∧
    dragAontoA s = s ∧
    dragAtoB (dragAtoB { a := "A", b := "B" }) ≠ dragAtoB { a := "A", b := "B" } :=
  ⟨rfl, rfl, rfl, rfl, by decide⟩

/-- C6: locator resolution is side-effect-free (it returns the DOM
unchanged), resolving twice in a row with no intervening mutation yields
the same count and the same text contents, and resolution is deferred to
call time — against a mutated DOM the same stored locator reports that
DOM's row count, never a cached one. -/
theorem locator_resolution_pure_and_deferred (d d' : TableDom) :
    (tableRowsCount d).2 = d ∧
    (tableRowsTexts d).2 = d ∧
    (tableRowsCount ((tableRowsCount d).2)).1 = (tableRowsCount d).1 ∧
    (tableRowsTexts ((tableRowsTexts d).2)).1 = (tableRowsTexts d).1 ∧
    (tableRowsCount d').1 = d'.rows.length :=
  ⟨rfl, rfl, rfl, rfl, rfl⟩

/-- C1 counterexample: `uploadViaFileChooser` registers its listener before
the click and resolves the file-chooser event, but its return value is void
(`none`), not the resolved payload — refuting the claim's final clause for
one of its cited operations. -/
theorem uploadViaFileChooser_returns_void_cex :
    runOp uploadViaFileChooser (fun _ => some "upload.txt") = Except.ok none ∧
    (Except.ok none : Except String (Option String)) ≠
      Except.ok (some "upload.txt") := by
  exact ⟨rfl, by simp⟩

/-- C1 (amended): each of the three operations registers its event
subscription strictly before issuing the click (subscription at step 0,
click at step 1), and with the subscription active through the click an
event fired at the very instant of the click is always captured — nothing
is lost, and the await of the listener future succeeds.
`downloadFileByName` and `clickLinkOpeningNewWindow` return the resolved
payload; `uploadViaFileChooser` consumes it (passes it to `setFiles`) and
returns void. -/
theorem eventRaceProtocol_amended (env : EventKind → Option String) (p : String) :
    (subscribeIdx downloadFileByName EventKind.download = some 0 ∧
      clickIdx downloadFileByName = some 1) ∧
    (subscribeIdx clickLinkOpeningNewWindow EventKind.newPage = some 0 ∧
      clickIdx clickLinkOpeningNewWindow = some 1) ∧
    (subscribeIdx uploadViaFileChooser EventKind.fileChooser = some 0 ∧
      clickIdx uploadViaFileChooser = some 1) ∧
    (env EventKind.download = some p →
      runOp downloadFileByName env = Except.ok (some p)) ∧
    (env EventKind.newPage = some p →
      runOp clickLinkOpeningNewWindow env = Except.ok (some p)) ∧
    (env EventKind.fileChooser = some p →
      runOp uploadViaFileChooser env = Except.ok none) := by
  refine ⟨⟨rfl, rfl⟩, ⟨rfl, rfl⟩, ⟨rfl, rfl⟩, fun h => ?_, fun h => ?_, fun h => ?_⟩
  · simp [runOp, downloadFileByName, runSteps, fireAtClick, h, List.lookup,
      eventKind_beq_self]
  · simp [runOp, clickLinkOpeningNewWindow, runSteps, fireAtClick, h,
      List.lookup, eventKind_beq_self]
  · simp [runOp, uploadViaFileChooser, runSteps, fireAtClick, h, List.lookup,
      eventKind_beq_self]

/-- Witness for C1 (amended): with a download event firing at click time,
`downloadFileByName` returns exactly that payload. -/
theorem eventRaceProtocol_amended_witness :
    runOp downloadFileByName (fun _ => some "payload.bin") =
      Except.ok (some "payload.bin") :=
  (eventRaceProtocol_amended (fun _ => some "payload.bin") "payload.bin").2.2.2.1 rfl

/-- C3 counterexample: on a table whose second row has a single cell,
`getColumnData` for column index 1 resolves the absent cell to `undefined`
(`none`), not to the empty string. -/
theorem getColumnData_undefined_cex :
    getColumnData ⟨[["a", "b"], ["c"]]⟩ 1 = [some "b", none] ∧
    (getColumnData ⟨[["a", "b"], ["c"]]⟩ 1).get? 1 ≠ some (some "") := by
  exact ⟨by decide, by decide⟩

/-- C3 (amended): extraction is total — a row with zero cells contributes
the empty list and never a crash — and `getCellText` resolves an absent
cell to the empty string; but `getColumnData` maps a row with no cell at
the requested column index to `undefined` (`none`), not to `""`. -/
theorem extraction_absent_cells_amended (t : TableDom) (i j c : Nat)
    (r : List String) :
    (getAllTableData t).length = t.rows.length ∧
    (t.rows.get? i = some [] →
      getRowData t i = [] ∧ (getAllTableData t).get? i = some []) ∧
    (((t.rows.get? i).getD []).get? j = none → getCellText t i j = "") ∧
    (t.rows.get? i = some r → r.length ≤ c →
      (getColumnData t c).get? i = some none) := by
  refine ⟨by simp [getAllTableData], fun h => ⟨?_, ?_⟩, fun h => ?_,
    fun hr hlen => ?_⟩
  · simp only [List.get?_eq_getElem?] at h
    simp [getRowData, h]
  · simp only [List.get?_eq_getElem?] at h
    simp [getAllTableData, List.getElem?_map, h]
  · simp only [List.get?_eq_getElem?] at h
    simp [getCellText, h]
  · simp only [List.get?_eq_getElem?] at hr
    simp [getColumnData, getAllTableData, List.getElem?_map, hr]
    exact hlen

/-- Witness for C3 (amended): on a concrete table, the absent cell reads as
`""` through `getCellText` and as `undefined` through `getColumnData`. -/
theorem extraction_absent_cells_amended_witness :
    getCellText ⟨[["a", "b"], ["c"]]⟩ 1 1 = "" ∧
    (getColumnData ⟨[["a", "b"], ["c"]]⟩ 1).get? 1 = some none :=
  ⟨(extraction_absent_cells_amended ⟨[["a", "b"], ["c"]]⟩ 1 1 1 ["c"]).2.2.1
      (by decide),
   (extraction_absent_cells_amended ⟨[["a", "b"], ["c"]]⟩ 1 1 1 ["c"]).2.2.2
      (by decide) (by decide)⟩

/-- C7: timeouts are surfaced, never silently swallowed, outside the
documented best-effort helper: `downloadFileByName` propagates the
TimeoutError when no download event ever fires; `downloadAndReadText`
throws when the download reports no path instead of returning a defaulted
value, and returns the file content otherwise; the only swallowed timeouts
are the three explicitly documented best-effort clicks of `dismissAnyAds`,
which completes normally whatever happens. -/
theorem timeout_surfaced_except_documented
    (o1 o2 o3 : ClickOutcome) (fs : String → String) (d : DownloadObj)
    (env : EventKind → Option String) :
    dismissAnyAds o1 o2 o3 = Except.ok () ∧
    (d.downloadPath = none →
      downloadAndReadText fs d =
        Except.error "Download failed - no path returned") ∧
    (∀ p, d.downloadPath = some p →
      downloadAndReadText fs d = Except.ok (fs p)) ∧
    (env EventKind.download = none →
      runOp downloadFileByName env = Except.error "TimeoutError") := by
  refine ⟨?_, fun h => ?_, fun p h => ?_, fun h => ?_⟩
  · cases o1 <;> cases o2 <;> cases o3 <;> rfl
  · simp [downloadAndReadText, h]
  · simp [downloadAndReadText, h]
  · simp [runOp, downloadFileByName, runSteps, fireAtClick, h, List.lookup]

/-- Witness for C7: all three ad clicks timing out still ends normally,
and a pathless download raises the documented error. -/
theorem timeout_surfaced_except_documented_witness :
    dismissAnyAds ClickOutcome.timedOut ClickOutcome.timedOut
      ClickOutcome.timedOut = Except.ok () ∧
    downloadAndReadText (fun _ => "content") ⟨none⟩ =
      Except.error "Download failed - no path returned" :=
  ⟨(timeout_surfaced_except_documented ClickOutcome.timedOut
      ClickOutcome.timedOut ClickOutcome.timedOut (fun _ => "content") ⟨none⟩
      (fun _ => none)).1,
   (timeout_surfaced_except_documented ClickOutcome.timedOut
      ClickOutcome.timedOut ClickOutcome.timedOut (fun _ => "content") ⟨none⟩
      (fun _ => none)).2.1 rfl⟩

/-- C10: the sortedness checks use default lexicographic string comparison,
not numeric order — the column `["2", "10"]` is reported as not ascending —
and both checks return `true` for any column with at most one row and for
any all-equal column. -/
theorem sorted_checks_lexicographic (t : TableDom) (c : Nat) (v : Option String) :
    isColumnSortedAscending ⟨[["2"], ["10"]]⟩ 0 = false ∧
    (t.rows.length ≤ 1 →
      isColumnSortedAscending t c = true ∧ isColumnSortedDescending t c = true) ∧
    ((∀ x ∈ columnValues t c, x = v) →
      isColumnSortedAscending t c = true ∧ isColumnSortedDescending t c = true) := by
  refine ⟨?_, fun hle => ?_, fun hall => ?_⟩
  · unfold isColumnSortedAscending
    rw [show columnValues ⟨[["2"], ["10"]]⟩ 0 = [some "2", some "10"] by decide]
    rw [jsSortColumn_two_ten]
    decide
  · have hlen : (columnValues t c).length ≤ 1 := by
      simpa [columnValues, getAllTableData] using hle
    rcases hcv : columnValues t c with _ | ⟨x, _ | ⟨y, rest⟩⟩
    · unfold isColumnSortedAscending isColumnSortedDescending
      rw [hcv]
      simp [jsSortColumn, jsSortStrings]
    · unfold isColumnSortedAscending isColumnSortedDescending
      rw [hcv, jsSortColumn_single]
      simp
    · rw [hcv] at hlen
      simp at hlen
  · obtain ⟨n, hn⟩ : ∃ n, columnValues t c = List.replicate n v :=
      ⟨(columnValues t c).length, List.eq_replicate_of_mem hall⟩
    unfold isColumnSortedAscending isColumnSortedDescending
    rw [hn, jsSortColumn_replicate]
    simp [List.reverse_replicate]

/-- Witness for C10: an all-equal two-row column passes both sortedness
checks. -/
theorem sorted_checks_lexicographic_witness :
    isColumnSortedAscending ⟨[["x"], ["x"]]⟩ 0 = true ∧
    isColumnSortedDescending ⟨[["x"], ["x"]]⟩ 0 = true :=
  (sorted_checks_lexicographic ⟨[["x"], ["x"]]⟩ 0 (some "x")).2.2 (by decide)

end PlaywrightMaster
